import Mathlib

/-!
Verification of the appstream-dep11 metadata generator against its
natural-language specification.  The Python sources under `src/dep11/` are
shallowly embedded: pure helpers become Lean functions on `String` or
`List Char`, the LMDB cache becomes association lists threaded through the
operations, and Python truthiness / operator dispatch is made explicit at
each use site (documented next to the definition it affects).
-/

set_option autoImplicit false

namespace Dep11

/-! ## String helpers mirroring Python primitives -/

/-- Split a character list at the first occurrence of `sep`: returns the
characters before the separator and, when the separator occurs, the rest
after it. -/
def breakAt (sep : Char) : List Char → List Char × Option (List Char)
  | [] => ([], none)
  | c :: cs =>
    if c = sep then ([], some cs)
    else
      let r := breakAt sep cs
      (c :: r.1, r.2)

/-- Python `s.split(".", 2)` (at most two splits, so at most three parts),
on the character list of `s`. -/
def splitDot2 (cs : List Char) : List (List Char) :=
  let p1 := breakAt '.' cs
  Option.elim p1.2 [p1.1] fun r1 =>
    let p2 := breakAt '.' r1
    Option.elim p2.2 [p1.1, p2.1] fun r2 => [p1.1, p2.1, r2]

/-- Python `s.split(sep)` for a single-character separator: every occurrence
splits, empty fields are kept (`"a;b;".split(";") == ["a","b",""]`,
`"".split(";") == [""]`). -/
def splitAll (sep : Char) : List Char → List (List Char)
  | [] => [[]]
  | c :: cs =>
    if c = sep then [] :: splitAll sep cs
    else
      match splitAll sep cs with
      | [] => [[c]]
      | h :: t => (c :: h) :: t

/-- Python `re.split(';|,', s)`: like `splitAll` but splitting at either of
two separator characters. -/
def splitSemiComma : List Char → List (List Char)
  | [] => [[]]
  | c :: cs =>
    if c = ';' ∨ c = ',' then [] :: splitSemiComma cs
    else
      match splitSemiComma cs with
      | [] => [[c]]
      | h :: t => (c :: h) :: t

/-- Python `s.split(sep)` on strings, single-character separator. -/
def pySplit (sep : Char) (s : String) : List String :=
  (splitAll sep s.data).map String.mk

/-- Python `sep.join(parts)`. -/
def pyJoin (sep : String) : List String → String
  | [] => ""
  | [s] => s
  | s :: rest => s ++ sep ++ pyJoin sep rest

/-- Python `s.startswith(p)`. -/
def pyStartsWith (s p : String) : Bool := p.data.isPrefixOf s.data

/-- Python `s.endswith(p)`. -/
def pyEndsWith (s p : String) : Bool := p.data.isSuffixOf s.data

/-- Python `s.lower()` (ASCII case folding suffices for the data handled
here). -/
def pyLower (s : String) : String := String.mk (s.data.map Char.toLower)

/-- Python `sub in s` for a single-character `sub` (the only form the
embedded code uses, e.g. `"." in icon_str`). -/
def pyContainsChar (c : Char) (s : String) : Bool := s.data.contains c

/-! ## C1 — utils.build_cpt_global_id (utils.py lines 64-77) -/

/-- The fallback form of the global id: `cptid[0].lower() + "/" + cptid +
"/" + checksum` (utils.py line 75).  `none` is unreachable because the
caller has already ruled out an empty `cptid`. -/
def globalIdFallback (cptid checksum : String) : Option String :=
  match cptid.data with
  | [] => none
  | c0 :: _ => some (String.mk (Char.toLower c0 :: '/' :: (cptid.data ++ '/' :: checksum.data)))

/-- utils.py lines 64-77, `build_cpt_global_id(cptid, checksum)`.
Returns `None` when either argument is falsy (empty).  When the id starts
with one of the four reverse-DNS prefixes `org.` `net.` `com.` `io.` and
`cptid.split(".", 2)` yields more than two parts, the id is
`parts[0].lower()/parts[1]/parts[2]/checksum`; otherwise
`cptid[0].lower()/cptid/checksum`. -/
def build_cpt_global_id (cptid checksum : String) : Option String :=
  if checksum.data = [] ∨ cptid.data = [] then none
  else if pyStartsWith cptid "org." || pyStartsWith cptid "net." ||
          pyStartsWith cptid "com." || pyStartsWith cptid "io." then
    match splitDot2 cptid.data with
    | [t, o, r] =>
      some (String.mk (t.map Char.toLower ++ '/' :: (o ++ '/' :: (r ++ '/' :: checksum.data))))
    | _ => globalIdFallback cptid checksum
  else globalIdFallback cptid checksum

/-! ## C4 / C10 — IconSize operators (component.py lines 75-146) and
Theme._directory_matches_size (iconhandler.py lines 74-80) -/

/-- component.py line 75: `IconSize` wraps one integer. -/
structure PyIconSize where
  size : Int
deriving DecidableEq

/-- The right-hand operand of an `IconSize` dunder: Python branches on
`type(other)`. -/
inductive PyOperand where
  | isize (o : PyIconSize)
  | int (n : Int)
deriving DecidableEq

/-- component.py lines 120-123, `IconSize.__le__`: for an `IconSize`
operand `self.size <= other.size`, but for any other operand the body reads
`self.size < other` — the strict comparison of `__lt__`. -/
def iconSize_le (self : PyIconSize) (other : PyOperand) : Bool :=
  match other with
  | .isize o => self.size ≤ o.size
  | .int n => self.size < n

/-- component.py lines 130-133, `IconSize.__ge__`: for an `IconSize`
operand `self.size >= other.size`, but for any other operand the body reads
`self.size > other` — the strict comparison of `__gt__`. -/
def iconSize_ge (self : PyIconSize) (other : PyOperand) : Bool :=
  match other with
  | .isize o => self.size ≥ o.size
  | .int n => self.size > n

/-- component.py lines 108-113, `IconSize.__eq__` restricted to the integer
and `IconSize` operands used by the icon code. -/
def iconSize_eq (self : PyIconSize) (other : PyOperand) : Bool :=
  match other with
  | .isize o => self.size = o.size
  | .int n => self.size = n

/-- component.py lines 140-143, `IconSize.__sub__`: both branches multiply
(`self.size * other.size` and `self.size * other`). -/
def iconSize_sub (self : PyIconSize) (other : PyOperand) : Int :=
  match other with
  | .isize o => self.size * o.size
  | .int n => self.size * n

/-- One parsed `index.theme` section (iconhandler.py lines 62-69): the
`Type` value is kept as the raw string (fallback `"Threshold"`), the four
integers with their fallbacks already applied. -/
structure ThemeDir where
  dirKind : String
  size : Int
  minsize : Int
  maxsize : Int
  threshold : Int
deriving DecidableEq

/-- iconhandler.py lines 74-80, `Theme._directory_matches_size(themedir,
size)` where `size` is an `IconSize` and the themedir fields are Python
ints.  Python evaluates the chained `a <= size <= b` as `(a <= size) and
(size <= b)`; `int.__le__` returns `NotImplemented` for an `IconSize`, so
`a <= size` falls back to the reflected `IconSize.__ge__(size, a)`, and
`size <= b` is `IconSize.__le__(size, b)`.  An unrecognized `Type` string
makes the Python function return `None`, which its caller treats as no
match. -/
def directory_matches_size (d : ThemeDir) (size : PyIconSize) : Bool :=
  if d.dirKind = "Fixed" then
    iconSize_eq size (.int d.size)
  else if d.dirKind = "Scalable" then
    iconSize_ge size (.int d.minsize) && iconSize_le size (.int d.maxsize)
  else if d.dirKind = "Threshold" then
    iconSize_ge size (.int (d.size - d.threshold)) &&
      iconSize_le size (.int (d.size + d.threshold))
  else false

/-- The size matching the specification describes (spec section 4.4): Fixed
is exact equality, Scalable and Threshold have inclusive bounds.  Stated
from the spec's words, for comparison with `directory_matches_size`. -/
def directory_matches_size_spec (d : ThemeDir) (size : Int) : Bool :=
  if d.dirKind = "Fixed" then size = d.size
  else if d.dirKind = "Scalable" then d.minsize ≤ size ∧ size ≤ d.maxsize
  else if d.dirKind = "Threshold" then
    d.size - d.threshold ≤ size ∧ size ≤ d.size + d.threshold
  else false

/-! ## C2 / C3 / C9 — the LMDB data cache (datacache.py) and its expiry
(generator.py).  Each LMDB sub-database is an association list with unique
keys; `txn.put` replaces, `txn.delete` removes, cursor order is
irrelevant to every property proved here. -/

/-- `txn.get(k)`: the value stored under `k`, if any. -/
def dbGet (db : List (String × String)) (k : String) : Option String :=
  (db.find? (fun p => p.1 == k)).map (fun p => p.2)

/-- `txn.put(k, v)`: store `v` under `k`, replacing any previous value. -/
def dbPut (db : List (String × String)) (k v : String) : List (String × String) :=
  (k, v) :: db.filter (fun p => !(p.1 == k))

/-- The cache state: the three LMDB sub-databases of datacache.py lines
52-54 plus the media pool, a media directory being a pair
(archive-component, gid) for `<media_dir>/<component>/<gid>`. -/
structure CacheState where
  packages : List (String × String)
  hintsdb : List (String × String)
  metadata : List (String × String)
  media : List (String × String)
deriving DecidableEq

/-- A `DEP11Component` as `DataCache.set_components` observes it
(component.py):  `globalId` is the `global_id` property, `ignoredPre` the
value of `has_ignore_reason()` when the loop first checks it, `yamlDoc`
what `to_yaml_doc()` returns, `ignoredPost` the value of
`has_ignore_reason()` after `to_yaml_doc()` ran (serialization can add
error hints, component.py lines 631-644), and `hintsYaml` what
`get_hints_yaml()` returns (`""` standing for the falsy `None` of a
component without hints: only truthiness and concatenation of this value
are ever used). -/
structure CComponent where
  globalId : String
  ignoredPre : Bool
  ignoredPost : Bool
  yamlDoc : String
  hintsYaml : String
deriving DecidableEq

/-- The loop of `DataCache.set_components` (datacache.py lines 131-149)
over the component list, threading the metadata database: yields the
collected gid list, the concatenated hints string, and the updated
metadata database.  A component is skipped when already ignored; reused
when its gid has metadata; serialized and stored unless serialization
left it ignored.  `get_hints_yaml` is appended for every component. -/
def scLoop : List (String × String) → List CComponent →
    List String × String × List (String × String)
  | md, [] => ([], "", md)
  | md, c :: rest =>
    if c.ignoredPre then
      let r := scLoop md rest
      (r.1, c.hintsYaml ++ r.2.1, r.2.2)
    else if (dbGet md c.globalId).isSome then
      let r := scLoop md rest
      (c.globalId :: r.1, c.hintsYaml ++ r.2.1, r.2.2)
    else if c.ignoredPost then
      let r := scLoop md rest
      (r.1, c.hintsYaml ++ r.2.1, r.2.2)
    else
      let r := scLoop (dbPut md c.globalId c.yamlDoc) rest
      (c.globalId :: r.1, c.hintsYaml ++ r.2.1, r.2.2)

/-- datacache.py lines 122-158, `DataCache.set_components(pkgid, cpts)`:
an empty list marks the package `ignore`; otherwise the loop runs, the
hints string is always written, and the package key gets the
newline-joined gid list when any gid was collected, else `seen` when the
hints string is non-empty, else nothing. -/
def set_components (st : CacheState) (pkgid : String) (cpts : List CComponent) :
    CacheState :=
  if cpts.length = 0 then
    { st with packages := dbPut st.packages pkgid "ignore" }
  else
    let r := scLoop st.metadata cpts
    let st1 : CacheState :=
      { st with metadata := r.2.2, hintsdb := dbPut st.hintsdb pkgid r.2.1 }
    if r.1 ≠ [] then
      { st1 with packages := dbPut st1.packages pkgid (pyJoin "\n" r.1) }
    else if r.2.1 ≠ "" then
      { st1 with packages := dbPut st1.packages pkgid "seen" }
    else st1

/-- datacache.py lines 185-191, `DataCache.remove_package`: delete the
package key from the packages and hints databases. -/
def remove_package (st : CacheState) (pkgid : String) : CacheState :=
  { st with
    packages := st.packages.filter (fun p => !(p.1 == pkgid)),
    hintsdb := st.hintsdb.filter (fun p => !(p.1 == pkgid)) }

/-- datacache.py lines 203-212, `DataCache.get_packages_not_in_set`: the
package keys not in the valid set. -/
def get_packages_not_in_set (st : CacheState) (valid : List String) : List String :=
  (st.packages.map Prod.fst).filter (fun k => !(valid.contains k))

/-- datacache.py lines 217-227: the gids some package still references —
every packages value that is not empty, `ignore` or `seen`, split on
newlines. -/
def referencedGids (packages : List (String × String)) : List String :=
  (packages.filter
    (fun p => !(p.2 == "") && !(p.2 == "ignore") && !(p.2 == "seen"))).flatMap
    (fun p => pySplit '\n' p.2)

/-- datacache.py lines 241-243: `glob` of `<media_dir>/*/<gid>` followed by
`shutil.rmtree(dirs[0])` — remove the first media directory whose gid
matches (a no-op when none does). -/
def removeFirstMedia : List (String × String) → String → List (String × String)
  | [], _ => []
  | e :: rest, gid => if e.2 = gid then rest else e :: removeFirstMedia rest gid

/-- datacache.py lines 214-250, `DataCache.remove_orphaned_components`:
every gid of the metadata database referenced by no package is dropped,
and its media directory removed.  `_cleanup_empty_dirs` (lines 173-183)
only removes directories that contain nothing and is not part of the
modelled state. -/
def remove_orphaned_components (st : CacheState) : CacheState :=
  let refs := referencedGids st.packages
  { st with
    metadata := st.metadata.filter (fun p => refs.contains p.1),
    media := st.metadata.foldl
      (fun m p => if refs.contains p.1 then m else removeFirstMedia m p.1) st.media }

/-- The cache-state effect of `DEP11Generator.expire_cache` (generator.py
lines 286-293): drop every package whose pkid is not in the valid set,
then drop orphaned components and their media. -/
def expire (st : CacheState) (valid : List String) : CacheState :=
  remove_orphaned_components
    ((get_packages_not_in_set st valid).foldl remove_package st)

/-- The methods datacache.py defines on `DataCache` (its class body,
lines 34-250). -/
def dataCacheMethodNames : List String :=
  ["__init__", "open", "close", "reopen", "metadata_exists", "get_metadata",
   "set_metadata", "set_package_ignore", "get_cpt_gids_for_pkg",
   "get_metadata_for_pkg", "set_components", "get_hints", "set_hints",
   "_cleanup_empty_dirs", "remove_package", "is_ignored", "package_exists",
   "get_packages_not_in_set", "remove_orphaned_components"]

/-- generator.py lines 275-295, `DEP11Generator.expire_cache`: after
removing stale packages and orphaned components it evaluates
`self._cache.remove_orphaned_media()`; Python attribute lookup raises
`AttributeError` when the name is defined nowhere on the class, so the
method would only return normally if `DataCache` had that attribute.  The
error value carries the cache state at raise time. -/
def expire_cache (st : CacheState) (valid : List String) :
    Except (String × CacheState) CacheState :=
  let st2 := expire st valid
  if dataCacheMethodNames.contains "remove_orphaned_media" then Except.ok st2
  else
    Except.error
      ("AttributeError: 'DataCache' object has no attribute 'remove_orphaned_media'",
       st2)

/-- Example cache state for the C2 witness: the metadata database already
holds gid `g1`. -/
def c2ExState : CacheState :=
  { packages := [], hintsdb := [], metadata := [("g1", "y1")], media := [] }

/-- C2 witness components: one whose metadata already exists, one fresh,
one carrying an ignore reason. -/
def c2ExCpts : List CComponent :=
  [{ globalId := "g1", ignoredPre := false, ignoredPost := false,
     yamlDoc := "yA", hintsYaml := "hA" },
   { globalId := "g2", ignoredPre := false, ignoredPost := false,
     yamlDoc := "yB", hintsYaml := "" },
   { globalId := "g3", ignoredPre := true, ignoredPost := true,
     yamlDoc := "yC", hintsYaml := "hC" }]

/-- Example cache state for the C3 witness: package `old` is stale, gid
`g3` is about to become orphaned. -/
def c3ExState : CacheState :=
  { packages := [("p1", "g1\ng2"), ("p2", "ignore"), ("old", "g3")],
    hintsdb := [("old", "h")],
    metadata := [("g1", "y1"), ("g2", "y2"), ("g3", "y3")],
    media := [("main", "g1"), ("main", "g3")] }

/-! ## C5 / C6 — parsers.read_desktop_data (parsers.py lines 33-123) and
its call sites in extractor._process_pkg (extractor.py lines 572-605) -/

/-- The fields of a `DEP11Component` that `read_desktop_data` touches.
`ignoreReasons` backs `add_ignore_reason` / `has_ignore_reason`; the
component class used by parsers.py is not shipped under src/dep11, so the
two methods are modelled from the spec (section 4.5: an invisible
component is "removed without hint", hence ignore reasons are a list
separate from the hints list, and `has_ignore_reason` is their
non-emptiness).  Localized dictionaries are association lists in
insertion order. -/
structure DComponent where
  ignoreReasons : List String
  hints : List String
  kind : Option String
  name : List (String × String)
  summary : List (String × String)
  keywords : Option (List (String × List String))
  mimetypes : List String
  icon : Option String
  categories : Option (List String)
deriving DecidableEq

/-- Modelled from the spec: `DEP11Component.add_ignore_reason` (not under
src/dep11) appends an ignore reason; no hint is involved. -/
def add_ignore_reason (c : DComponent) (r : String) : DComponent :=
  { c with ignoreReasons := c.ignoreReasons ++ [r] }

/-- Modelled from the spec: `DEP11Component.has_ignore_reason` (not under
src/dep11) is true when any ignore reason was recorded. -/
def has_ignore_reason (c : DComponent) : Bool := !(c.ignoreReasons.isEmpty)

/-- A .desktop file as `RawConfigParser` presents it to
`read_desktop_data`: whether the `[Desktop Entry]` group exists, and the
group's option/value pairs with option names already lowercased
(RawConfigParser's default `optionxform`; keys are unique). -/
structure DesktopFile where
  groupOk : Bool
  items : List (String × String)
deriving DecidableEq

/-- `df.get("Desktop Entry", key)`: the parser lowercases the option name;
`none` models the `NoOptionError` it raises on a missing option. -/
def dfGet (df : DesktopFile) (key : String) : Option String :=
  (df.items.find? (fun p => p.1 == pyLower key)).map (fun p => p.2)

/-- Python dict assignment `d[k] = v` on an insertion-ordered dict of
strings. -/
def dictPut : List (String × String) → String → String → List (String × String)
  | [], k, v => [(k, v)]
  | (k0, v0) :: rest, k, v =>
    if k0 = k then (k, v) :: rest else (k0, v0) :: dictPut rest k v

/-- Python dict assignment for the keywords dict (locale → word list). -/
def dictPutList : List (String × List String) → String → List String →
    List (String × List String)
  | [], k, v => [(k, v)]
  | (k0, v0) :: rest, k, v =>
    if k0 = k then (k, v) :: rest else (k0, v0) :: dictPutList rest k v

/-- Python `key[a:-1]`, the locale inside a `name[locale]`-style key: drop
the first `a` characters and the final bracket. -/
def pySliceLocale (s : String) (a : Nat) : String :=
  String.mk ((s.data.drop a).dropLast)

/-- Python `set(x) == set(y)` on lists of strings. -/
def pySetEq (x y : List String) : Bool :=
  x.all (fun a => y.contains a) && y.all (fun a => x.contains a)

/-- parsers.py lines 86-88: `value = re.split(';|,', value)` followed by
`if not value[-1]: value.pop()`. -/
def keywordSplit (value : String) : List String :=
  let l := (splitSemiComma value.data).map String.mk
  if l.getLast? = some "" then l.dropLast else l

/-- One iteration of the item loop of `read_desktop_data` (parsers.py
lines 64-123), dispatching on the (lowercased) key; `str_enc_dec` is the
identity on well-formed text, and an empty value is skipped (`if not
value: continue`).  The `categories` branch (lines 76-79) is
`value.split(';')` followed by an unconditional `value.pop()`.  A key
matching no branch leaves the component unchanged. -/
def processItem (cpt : DComponent) (kv : String × String) : DComponent :=
  let key := kv.1
  let value := kv.2
  if value = "" then cpt
  else if pyStartsWith key "name" then
    if key = "name" then { cpt with name := dictPut cpt.name "C" value }
    else { cpt with name := dictPut cpt.name (pySliceLocale key 5) value }
  else if key = "categories" then
    { cpt with categories := some ((pySplit ';' value).dropLast) }
  else if pyStartsWith key "comment" then
    if key = "comment" then { cpt with summary := dictPut cpt.summary "C" value }
    else { cpt with summary := dictPut cpt.summary (pySliceLocale key 8) value }
  else if pyStartsWith key "keywords" then
    let kws := keywordSplit value
    let locale := if String.mk (key.data.drop 8) = "" then "C" else pySliceLocale key 9
    match cpt.keywords with
    | some kw =>
      if kw.any (fun p => pySetEq kws p.2) then cpt
      else { cpt with keywords := some (dictPutList kw locale kws) }
    | none => { cpt with keywords := some [(locale, kws)] }
  else if key = "mimetype" then
    let vs := pySplit ';' value
    let vs2 := if vs.length > 1 then vs.dropLast else vs
    { cpt with mimetypes := cpt.mimetypes ++ vs2 }
  else if key = "icon" then
    { cpt with icon := some value }
  else cpt

/-- parsers.py lines 33-123, `read_desktop_data(cpt, dcontent)` over the
parsed view of the content.  The try/except structure: a missing
`[Desktop Entry]` group (`NoSectionError` from `items()`) or a missing
`Type` key (`NoOptionError`) reaches the outer handler — ignore reason,
return True; a missing `NoDisplay` key is swallowed by the inner handler;
`Type != "Application"` and `NoDisplay == "True"` (the exact string,
capital T) add their ignore reasons and return False.  Otherwise the kind
becomes `desktop-app` and every item is processed in order. -/
def read_desktop_data (cpt : DComponent) (df : DesktopFile) : Bool × DComponent :=
  if ¬ df.groupOk then
    (true, add_ignore_reason cpt "Error while reading .desktop data")
  else
    match dfGet df "Type" with
    | none => (true, add_ignore_reason cpt "Error while reading .desktop data")
    | some ty =>
      if ty ≠ "Application" then (false, add_ignore_reason cpt "Not an application.")
      else if dfGet df "NoDisplay" = some "True" then
        (false, add_ignore_reason cpt "Invisible")
      else
        (true, df.items.foldl processItem { cpt with kind := some "desktop-app" })

/-- extractor.py line 582: for a desktop-app whose metainfo XML was
already read, the paired .desktop data is fed to `read_desktop_data` and
the return value is DISCARDED; the component keeps its slot in
`component_dict` but also keeps whatever ignore reasons the call added. -/
def process_paired_desktop (cpt : DComponent) (df : DesktopFile) : DComponent :=
  (read_desktop_data cpt df).2

/-- extractor.py lines 598-605: a leftover .desktop file (no paired XML)
is kept only when `read_desktop_data` returned True or left no ignore
reason; otherwise the component is silently dropped (`none`), no hint
emitted. -/
def process_leftover_desktop (cpt : DComponent) (df : DesktopFile) :
    Option DComponent :=
  let r := read_desktop_data cpt df
  if r.1 || !(has_ignore_reason r.2) then some r.2 else none

/-- A fresh desktop-app component as the extractor's XML pass leaves it,
for the C5/C6 concrete inputs. -/
def desktopExCpt : DComponent :=
  { ignoreReasons := [], hints := [], kind := some "desktop-app",
    name := [("C", "Foo")], summary := [], keywords := none,
    mimetypes := [], icon := none, categories := none }

/-- A parsed .desktop file with `Type=Application` and `NoDisplay=True`. -/
def noDisplayExDf : DesktopFile :=
  { groupOk := true, items := [("type", "Application"), ("nodisplay", "True")] }

/-! ## C7 — allowed icon file suffixes (extractor.py lines 60, 241-244,
484-488; iconhandler.py lines 258-262, 332-338) -/

/-- extractor.py line 60: `self._icon_ext_allowed = ('.png', '.svg',
'.xcf', '.gif', '.svgz', '.jpg')`. -/
def extractor_icon_ext_allowed : List String :=
  [".png", ".svg", ".xcf", ".gif", ".svgz", ".jpg"]

/-- extractor.py lines 241-244, `MetadataExtractor._icon_allowed`:
`icon.endswith(self._icon_ext_allowed)` — case-sensitive, `.xcf`
included. -/
def extractor_icon_allowed (icon : String) : Bool :=
  extractor_icon_ext_allowed.any (fun e => pyEndsWith icon e)

/-- iconhandler.py line 336: the five extensions of
`IconHandler._icon_allowed` (no `.xcf`). -/
def iconhandler_icon_ext_allowed : List String :=
  [".png", ".svg", ".gif", ".svgz", ".jpg"]

/-- iconhandler.py lines 332-338, `IconHandler._icon_allowed`:
`icon.lower().endswith(('.png', '.svg', '.gif', '.svgz', '.jpg'))`. -/
def iconhandler_icon_allowed (icon : String) : Bool :=
  iconhandler_icon_ext_allowed.any (fun e => pyEndsWith (pyLower icon) e)

/-- iconhandler.py lines 258-262, the early suffix check of `fetch_icon`:
a reference containing a dot whose name is not allowed gets the
`icon-format-unsupported` hint and icon processing stops (first
component: the hint, second: whether processing stopped). -/
def fetch_icon_early_check (icon_str : String) : Option String × Bool :=
  if pyContainsChar '.' icon_str && !(iconhandler_icon_allowed icon_str) then
    (some "icon-format-unsupported", true)
  else (none, false)

/-- extractor.py lines 484-488: after every lookup failed, the emitted
hint is `icon-format-unsupported` for a dotted reference that
`_icon_allowed` rejects, and `icon-not-found` otherwise. -/
def extractor_fallback_hint (icon_str : String) : String :=
  if pyContainsChar '.' icon_str && !(extractor_icon_allowed icon_str) then
    "icon-format-unsupported"
  else "icon-not-found"

/-! ## C8 — MetadataExtractor._fetch_screenshots (extractor.py lines
161-239) -/

/-- The outcome of handling one screenshot, abstracting the network and
image I/O of the loop body: a readable download with its true pixel
dimensions, a non-200 HTTP status, a network exception during download,
or an exception while reading the stored image. -/
inductive ShotFetch where
  | ok (width height : Int)
  | httpError (code : Int)
  | netError (msg : String)
  | readError (msg : String)
deriving DecidableEq

/-- One screenshot of the component before fetching: its source URL and
the outcome its download would have. -/
structure SrcShot where
  url : String
  fetch : ShotFetch
deriving DecidableEq

/-- A generated thumbnail: pool URL and dimensions. -/
structure Thumb where
  url : String
  width : Int
  height : Int
deriving DecidableEq

/-- A successfully processed screenshot: rewritten source-image URL, true
dimensions, thumbnail set. -/
structure PShot where
  sourceUrl : String
  width : Int
  height : Int
  thumbnails : List Thumb
deriving DecidableEq

/-- extractor.py line 146: the fixed thumbnail sizes. -/
def thumbnail_sizes : List (Int × Int) :=
  [(1248, 702), (752, 423), (624, 351), (112, 63)]

/-- extractor.py lines 139-159, `_scale_screenshot`: one thumbnail per
size, named after the stored source image `scr-<cnt>.png`. -/
def scale_screenshot (base : String) (cnt : Nat) : List Thumb :=
  thumbnail_sizes.map (fun wh =>
    { url := base ++ "/" ++ toString wh.1 ++ "x" ++ toString wh.2 ++
        "/scr-" ++ toString cnt ++ ".png",
      width := wh.1, height := wh.2 })

/-- The screenshot loop of `_fetch_screenshots` (extractor.py lines
173-236): an empty URL skips the entry silently; a download failure or
read failure records its hint (tag, url parameter), leaves `success`
false and continues without touching the counter; a success stores the
processed screenshot under the current counter and increments it.
The export path and the public URL prefix of the code are collapsed into
the one `base` parameter, since only the shapes of the produced URLs
matter here.  Returns (hints emitted in order, processed screenshots,
success flag). -/
def fetch_screenshots_loop (base : String) :
    List SrcShot → Nat → List (String × String) × List PShot × Bool
  | [], _ => ([], [], true)
  | s :: rest, cnt =>
    if s.url = "" then fetch_screenshots_loop base rest cnt
    else
      match s.fetch with
      | .ok w h =>
        let r := fetch_screenshots_loop base rest (cnt + 1)
        (r.1,
         { sourceUrl := base ++ "/source/scr-" ++ toString cnt ++ ".png",
           width := w, height := h,
           thumbnails := scale_screenshot base cnt } :: r.2.1,
         r.2.2)
      | .httpError _ =>
        let r := fetch_screenshots_loop base rest cnt
        (("screenshot-download-error", s.url) :: r.1, r.2.1, false)
      | .netError _ =>
        let r := fetch_screenshots_loop base rest cnt
        (("screenshot-download-error", s.url) :: r.1, r.2.1, false)
      | .readError _ =>
        let r := fetch_screenshots_loop base rest cnt
        (("screenshot-read-error", s.url) :: r.1, r.2.1, false)

/-- The component state `_fetch_screenshots` can change: its hint list
(tag and url parameter per hint) and its ignore flag. -/
structure C8Cpt where
  hints : List (String × String)
  ignored : Bool
deriving DecidableEq

/-- Modelled from the spec: `hint_tag_is_error` (hints.py lines 117-124)
reads the severity table `data/dep11-hints.yml`, which is not under
src/dep11; the table is abstracted as a predicate `isError`, and the C8
theorem assumes `isError "screenshot-download-error" = false`, per spec
sections 4.7 and 8 (the screenshot is skipped, the component survives). -/
def screenshot_download_error_nonfatal (isError : String → Bool) : Prop :=
  isError "screenshot-download-error" = false

/-- extractor.py lines 161-239 combined with `Component.add_hint`
(component.py lines 278-284): the loop's hints are appended to the
component's and the ignore flag becomes set if any emitted hint's tag has
error severity.  Returns the updated component, the processed screenshot
list (stored on the component by line 238) and the success flag. -/
def fetch_screenshots (isError : String → Bool) (cpt : C8Cpt)
    (shots : List SrcShot) (base : String) : C8Cpt × List PShot × Bool :=
  let r := fetch_screenshots_loop base shots 1
  ({ hints := cpt.hints ++ r.1,
     ignored := cpt.ignored || r.1.any (fun h => isError h.1) },
   r.2.1, r.2.2)

/-- Concrete screenshots for the C8 witness. -/
def c8ExGood : SrcShot := { url := "http://a/1.png", fetch := .ok 800 600 }

/-- A screenshot whose download returns HTTP 404. -/
def c8ExBad : SrcShot := { url := "http://a/2.png", fetch := .httpError 404 }

/-- A second good screenshot, after the failing one. -/
def c8ExGood2 : SrcShot := { url := "http://a/3.png", fetch := .ok 640 480 }

/-- A component with no hints yet. -/
def c8ExCpt : C8Cpt := { hints := [], ignored := false }

end Dep11

namespace Dep11

/-! ## Theorems -/

theorem breakAt_not_mem {sep : Char} {l : List Char} (h : sep ∉ l) :
    breakAt sep l = (l, none) := by
  induction l with
  | nil => rfl
  | cons c cs ih =>
    simp only [List.mem_cons, not_or] at h
    simp [breakAt, Ne.symm h.1, ih h.2]

theorem breakAt_append {sep : Char} {l r : List Char} (h : sep ∉ l) :
    breakAt sep (l ++ sep :: r) = (l, some r) := by
  induction l with
  | nil => simp [breakAt]
  | cons c cs ih =>
    simp only [List.mem_cons, not_or] at h
    simp [breakAt, Ne.symm h.1, ih h.2]

theorem data_append (a b : String) : (a ++ b).data = a.data ++ b.data := rfl

theorem data_ne_nil {s : String} (h : s ≠ "") : s.data ≠ [] := by
  intro hd
  apply h
  cases s with
  | mk d => cases hd; rfl

theorem dot_data : ("." : String).data = ['.'] := rfl

theorem slash_data : ("/" : String).data = ['/'] := rfl

theorem splitDot2_three {a b : List Char} (r : List Char)
    (ha : '.' ∉ a) (hb : '.' ∉ b) :
    splitDot2 (a ++ '.' :: (b ++ '.' :: r)) = [a, b, r] := by
  simp only [splitDot2, breakAt_append ha, breakAt_append hb, Option.elim]

theorem splitDot2_two {a b : List Char} (ha : '.' ∉ a) (hb : '.' ∉ b) :
    splitDot2 (a ++ '.' :: b) = [a, b] := by
  simp only [splitDot2, breakAt_append ha, breakAt_not_mem hb, Option.elim]

theorem rdns_data (t o rst : String) :
    (t ++ "." ++ o ++ "." ++ rst).data
      = t.data ++ '.' :: (o.data ++ '.' :: rst.data) := by
  simp [data_append, dot_data]

theorem two_part_data (t o : String) :
    (t ++ "." ++ o).data = t.data ++ '.' :: o.data := by
  simp [data_append, dot_data]

theorem build_rdns_three (t o rst c : String)
    (htn : t.data ≠ []) (htd : '.' ∉ t.data) (ho : '.' ∉ o.data)
    (hc : c.data ≠ [])
    (hpre : (pyStartsWith (t ++ "." ++ o ++ "." ++ rst) "org." ||
             pyStartsWith (t ++ "." ++ o ++ "." ++ rst) "net." ||
             pyStartsWith (t ++ "." ++ o ++ "." ++ rst) "com." ||
             pyStartsWith (t ++ "." ++ o ++ "." ++ rst) "io.") = true) :
    build_cpt_global_id (t ++ "." ++ o ++ "." ++ rst) c =
      some (pyLower t ++ "/" ++ o ++ "/" ++ rst ++ "/" ++ c) := by
  have hdata := rdns_data t o rst
  have hsplit : splitDot2 ((t ++ "." ++ o ++ "." ++ rst).data)
      = [t.data, o.data, rst.data] := by
    rw [hdata]
    exact splitDot2_three rst.data htd ho
  rw [build_cpt_global_id, if_neg (by rw [hdata]; simp [hc, htn]), if_pos hpre, hsplit]
  refine congrArg some (String.ext ?_)
  show t.data.map Char.toLower ++ '/' :: (o.data ++ '/' :: (rst.data ++ '/' :: c.data)) = _
  simp [data_append, pyLower, slash_data]

theorem build_rdns_two (t o c : String)
    (htn : t.data ≠ []) (htd : '.' ∉ t.data) (ho : '.' ∉ o.data)
    (hc : c.data ≠ [])
    (hpre : (pyStartsWith (t ++ "." ++ o) "org." ||
             pyStartsWith (t ++ "." ++ o) "net." ||
             pyStartsWith (t ++ "." ++ o) "com." ||
             pyStartsWith (t ++ "." ++ o) "io.") = true) :
    build_cpt_global_id (t ++ "." ++ o) c = globalIdFallback (t ++ "." ++ o) c := by
  have hdata := two_part_data t o
  have hsplit : splitDot2 ((t ++ "." ++ o).data) = [t.data, o.data] := by
    rw [hdata]
    exact splitDot2_two htd ho
  rw [build_cpt_global_id, if_neg (by rw [hdata]; simp [hc, htn]), if_pos hpre, hsplit]

theorem isPrefixOf_self_append (l r : List Char) : l.isPrefixOf (l ++ r) = true := by
  induction l with
  | nil => simp [List.isPrefixOf]
  | cons c cs ih => simp [List.isPrefixOf, ih]

theorem pyStartsWith_of_data {s p : String} {r : List Char}
    (hd : s.data = p.data ++ r) : pyStartsWith s p = true := by
  rw [pyStartsWith, hd]
  exact isPrefixOf_self_append _ _

theorem starts_two (t td o : String) (h : (t ++ "." : String).data = td.data) :
    pyStartsWith (t ++ "." ++ o) td = true := by
  apply pyStartsWith_of_data
  rw [data_append, h]

/-- C1 (amended): the global id built by `build_cpt_global_id`.  For ids of
the form `T.O.RST` with `T` one of `org net com io` and `O` free of dots,
the id is `T/O/RST/<checksum>` (`T` is already lower case); for an id `T.O`
with only one dot the fallback applies despite the reverse-DNS prefix; an
id that does not start with `org.` `net.` `com.` or `io.` also takes the
fallback; and the fallback is `<first char, lowercased>/<id>/<checksum>`
(three segments, not the four-segment `<first>/<first two>/<id>/<checksum>`
form the claim states, and the prefix set has no `edu` or `name`). -/
theorem c1_build_cpt_global_id_amended :
    (∀ t o rst c : String,
      (t = "org" ∨ t = "net" ∨ t = "com" ∨ t = "io") →
      '.' ∉ o.data → c ≠ "" →
      build_cpt_global_id (t ++ "." ++ o ++ "." ++ rst) c =
        some (t ++ "/" ++ o ++ "/" ++ rst ++ "/" ++ c)) ∧
    (∀ t o c : String,
      (t = "org" ∨ t = "net" ∨ t = "com" ∨ t = "io") →
      '.' ∉ o.data → c ≠ "" →
      build_cpt_global_id (t ++ "." ++ o) c =
        globalIdFallback (t ++ "." ++ o) c) ∧
    (∀ cid c : String, cid ≠ "" → c ≠ "" →
      pyStartsWith cid "org." = false → pyStartsWith cid "net." = false →
      pyStartsWith cid "com." = false → pyStartsWith cid "io." = false →
      build_cpt_global_id cid c = globalIdFallback cid c) ∧
    (∀ (c0 : Char) (cs : List Char) (c : String),
      globalIdFallback (String.mk (c0 :: cs)) c =
        some (String.mk (c0.toLower :: '/' :: ((c0 :: cs) ++ '/' :: c.data)))) := by
  refine ⟨?_, ?_, ?_, ?_⟩
  · intro t o rst c ht ho hc
    have hc' := data_ne_nil hc
    rcases ht with rfl | rfl | rfl | rfl
    · have hp : pyStartsWith ("org" ++ "." ++ o ++ "." ++ rst) "org." = true :=
        pyStartsWith_of_data ((rdns_data "org" o rst).trans rfl)
      have key := build_rdns_three "org" o rst c (by decide) (by decide) ho hc'
        (by rw [hp]; simp only [Bool.or_true, Bool.true_or])
      rwa [show pyLower "org" = "org" from by decide] at key
    · have hp : pyStartsWith ("net" ++ "." ++ o ++ "." ++ rst) "net." = true :=
        pyStartsWith_of_data ((rdns_data "net" o rst).trans rfl)
      have key := build_rdns_three "net" o rst c (by decide) (by decide) ho hc'
        (by rw [hp]; simp only [Bool.or_true, Bool.true_or])
      rwa [show pyLower "net" = "net" from by decide] at key
    · have hp : pyStartsWith ("com" ++ "." ++ o ++ "." ++ rst) "com." = true :=
        pyStartsWith_of_data ((rdns_data "com" o rst).trans rfl)
      have key := build_rdns_three "com" o rst c (by decide) (by decide) ho hc'
        (by rw [hp]; simp only [Bool.or_true, Bool.true_or])
      rwa [show pyLower "com" = "com" from by decide] at key
    · have hp : pyStartsWith ("io" ++ "." ++ o ++ "." ++ rst) "io." = true :=
        pyStartsWith_of_data ((rdns_data "io" o rst).trans rfl)
      have key := build_rdns_three "io" o rst c (by decide) (by decide) ho hc'
        (by rw [hp]; simp only [Bool.or_true, Bool.true_or])
      rwa [show pyLower "io" = "io" from by decide] at key
  · intro t o c ht ho hc
    have hc' := data_ne_nil hc
    rcases ht with rfl | rfl | rfl | rfl
    · exact build_rdns_two "org" o c (by decide) (by decide) ho hc'
        (by rw [starts_two "org" "org." o (by decide)]
            simp only [Bool.or_true, Bool.true_or])
    · exact build_rdns_two "net" o c (by decide) (by decide) ho hc'
        (by rw [starts_two "net" "net." o (by decide)]
            simp only [Bool.or_true, Bool.true_or])
    · exact build_rdns_two "com" o c (by decide) (by decide) ho hc'
        (by rw [starts_two "com" "com." o (by decide)]
            simp only [Bool.or_true, Bool.true_or])
    · exact build_rdns_two "io" o c (by decide) (by decide) ho hc'
        (by rw [starts_two "io" "io." o (by decide)]
            simp only [Bool.or_true, Bool.true_or])
  · intro cid c hcid hc h1 h2 h3 h4
    rw [build_cpt_global_id, if_neg (by simp [data_ne_nil hc, data_ne_nil hcid]),
      h1, h2, h3, h4]
    rfl
  · intro c0 cs c
    rfl

/-- C1 (counterexample): at id `edu.one.two` with checksum `x` the code
returns `e/edu.one.two/x`, which is neither the `edu/one/two/x` the claimed
reverse-DNS rule (with `edu` in the prefix set) would give nor the
`e/ed/edu.one.two/x` of the claimed four-segment fallback. -/
theorem c1_build_cpt_global_id_cex :
    build_cpt_global_id "edu.one.two" "x" = some "e/edu.one.two/x" ∧
    "e/edu.one.two/x" ≠ "edu/one/two/x" ∧
    "e/edu.one.two/x" ≠ "e/ed/edu.one.two/x" := by
  refine ⟨by decide, by decide, by decide⟩

/-- C1 (witness): the amended theorem at the inputs `org.example.App` with
checksum `abc`, `com.sun` with checksum `c1`, and `myapp.desktop` with
checksum `ff`. -/
theorem c1_build_cpt_global_id_witness :
    build_cpt_global_id "org.example.App" "abc" = some "org/example/App/abc" ∧
    build_cpt_global_id "com.sun" "c1" = some "c/com.sun/c1" ∧
    build_cpt_global_id "myapp.desktop" "ff" = some "m/myapp.desktop/ff" := by
  obtain ⟨h1, h2, h3, _h4⟩ := c1_build_cpt_global_id_amended
  refine ⟨?_, ?_, ?_⟩
  · have h := h1 "org" "example" "App" "abc" (Or.inl rfl) (by decide) (by decide)
    rw [show ("org" ++ "." ++ "example" ++ "." ++ "App" : String) = "org.example.App"
          from by decide,
        show ("org" ++ "/" ++ "example" ++ "/" ++ "App" ++ "/" ++ "abc" : String)
            = "org/example/App/abc" from by decide] at h
    exact h
  · have h := h2 "com" "sun" "c1" (Or.inr (Or.inr (Or.inl rfl))) (by decide) (by decide)
    rw [show ("com" ++ "." ++ "sun" : String) = "com.sun" from by decide] at h
    rw [h]
    decide
  · have h := h3 "myapp.desktop" "ff" (by decide) (by decide)
      (by decide) (by decide) (by decide) (by decide)
    rw [h]
    decide

/-- C10: `IconSize.__sub__` returns the product of its operands, not their
difference: `IconSize(a) - IconSize(b)` and `IconSize(a) - b` both evaluate
to `a * b` for all integers, and at `a = 2, b = 3` the result `6` differs
from `2 - 3`. -/
theorem c10_iconSize_sub_is_product :
    (∀ a b : Int, iconSize_sub ⟨a⟩ (.isize ⟨b⟩) = a * b) ∧
    (∀ a b : Int, iconSize_sub ⟨a⟩ (.int b) = a * b) ∧
    iconSize_sub ⟨2⟩ (.int 3) ≠ 2 - 3 := by
  exact ⟨fun a b => rfl, fun a b => rfl, by decide⟩

/-- C4: the claim's inclusive bounds fail on the code.  A Scalable
directory with min-size 16 and max-size 32 does not match a requested size
of 32 (the chained comparison dispatches to the strict non-IconSize
branches of `IconSize.__ge__` / `IconSize.__le__`), and a Threshold
directory of size 32 with the default threshold 2 does not match 30 —
though the specification's inclusive predicate accepts both.  The Fixed
case is exact equality as claimed. -/
theorem c4_directory_matches_size_bug :
    directory_matches_size ⟨"Scalable", 24, 16, 32, 2⟩ ⟨32⟩ = false ∧
    directory_matches_size_spec ⟨"Scalable", 24, 16, 32, 2⟩ 32 = true ∧
    directory_matches_size ⟨"Threshold", 32, 32, 32, 2⟩ ⟨30⟩ = false ∧
    directory_matches_size_spec ⟨"Threshold", 32, 32, 32, 2⟩ 30 = true ∧
    directory_matches_size ⟨"Fixed", 32, 32, 32, 2⟩ ⟨32⟩ = true := by
  refine ⟨by decide, by decide, by decide, by decide, by decide⟩

/-- C9: `DataCache` defines no `remove_orphaned_media`, so
`DEP11Generator.expire_cache` always raises `AttributeError` after its two
cleanup steps — it never returns normally, and the state at raise time is
exactly the state `expire` produces. -/
theorem c9_expire_cache_raises :
    dataCacheMethodNames.contains "remove_orphaned_media" = false ∧
    ∀ (st : CacheState) (valid : List String),
      expire_cache st valid =
        Except.error
          ("AttributeError: 'DataCache' object has no attribute 'remove_orphaned_media'",
           expire st valid) := by
  exact ⟨by decide, fun st valid => rfl⟩

theorem find?_filter_ne (db : List (String × String)) (k k' : String)
    (h : k' ≠ k) :
    (db.filter (fun p => !(p.1 == k))).find? (fun p => p.1 == k')
      = db.find? (fun p => p.1 == k') := by
  induction db with
  | nil => rfl
  | cons e tl ih =>
    by_cases he : e.1 = k
    · have h2 : (e.1 == k') = false := by
        rw [he]
        exact beq_eq_false_iff_ne.mpr (Ne.symm h)
      rw [List.filter_cons_of_neg (by simp [he]), List.find?_cons_of_neg _ (by simp [h2]), ih]
    · rw [List.filter_cons_of_pos (by simp [he])]
      by_cases he' : e.1 = k'
      · rw [List.find?_cons_of_pos _ (by simp [he']), List.find?_cons_of_pos _ (by simp [he'])]
      · rw [List.find?_cons_of_neg _ (by simp [he']), List.find?_cons_of_neg _ (by simp [he']),
          ih]

theorem dbGet_put_self (db : List (String × String)) (k v : String) :
    dbGet (dbPut db k v) k = some v := by
  simp [dbGet, dbPut]

theorem dbGet_put_ne (db : List (String × String)) {k k' : String} (v : String)
    (h : k' ≠ k) : dbGet (dbPut db k v) k' = dbGet db k' := by
  rw [dbGet, dbPut, List.find?_cons_of_neg _ (by simp [Ne.symm h]), find?_filter_ne db k k' h]
  rfl

theorem dbGet_put_isSome_mono (db : List (String × String)) (k v g : String)
    (h : (dbGet db g).isSome = true) : (dbGet (dbPut db k v) g).isSome = true := by
  by_cases hg : g = k
  · subst hg
    rw [dbGet_put_self]
    rfl
  · rw [dbGet_put_ne db v hg]
    exact h

theorem scLoop_md_mono (cpts : List CComponent) (md : List (String × String))
    (g : String) (h : (dbGet md g).isSome = true) :
    (dbGet (scLoop md cpts).2.2 g).isSome = true := by
  induction cpts generalizing md with
  | nil => exact h
  | cons c rest ih =>
    cases hPre : c.ignoredPre with
    | true => simpa [scLoop, hPre] using ih md h
    | false =>
      cases hEx : (dbGet md c.globalId).isSome with
      | true => simpa [scLoop, hPre, hEx] using ih md h
      | false =>
        cases hPost : c.ignoredPost with
        | true => simpa [scLoop, hPre, hEx, hPost] using ih md h
        | false =>
          simpa [scLoop, hPre, hEx, hPost] using
            ih _ (dbGet_put_isSome_mono md c.globalId c.yamlDoc g h)

theorem scLoop_gids_covered (cpts : List CComponent) (md : List (String × String)) :
    ∀ g ∈ (scLoop md cpts).1, (dbGet (scLoop md cpts).2.2 g).isSome = true := by
  induction cpts generalizing md with
  | nil => intro g hg; cases hg
  | cons c rest ih =>
    intro g hg
    cases hPre : c.ignoredPre with
    | true =>
      simp [scLoop, hPre] at hg ⊢
      exact ih md g hg
    | false =>
      cases hEx : (dbGet md c.globalId).isSome with
      | true =>
        simp [scLoop, hPre, hEx] at hg ⊢
        rcases hg with rfl | hg'
        · exact scLoop_md_mono rest md c.globalId hEx
        · exact ih md g hg'
      | false =>
        cases hPost : c.ignoredPost with
        | true =>
          simp [scLoop, hPre, hEx, hPost] at hg ⊢
          exact ih md g hg
        | false =>
          simp [scLoop, hPre, hEx, hPost] at hg ⊢
          rcases hg with rfl | hg'
          · exact scLoop_md_mono rest _ c.globalId (by rw [dbGet_put_self]; rfl)
          · exact ih _ g hg'

/-- C2: the effect of `set_components` on the cache.  An empty component
list marks the package `ignore`.  Otherwise, writing `gids` for the global
ids collected by the loop (the non-ignored components that either already
had metadata or survived serialization without gaining an ignore reason)
and `hints` for the concatenated hint documents: if any gid was collected,
the package maps to the newline-joined gid list and every collected gid
has a metadata entry; if none was but some component produced hints, the
package maps to `seen`. -/
theorem c2_set_components (st : CacheState) (pkgid : String)
    (cpts : List CComponent) :
    (cpts = [] →
      dbGet (set_components st pkgid cpts).packages pkgid = some "ignore") ∧
    (cpts ≠ [] → (scLoop st.metadata cpts).1 ≠ [] →
      dbGet (set_components st pkgid cpts).packages pkgid
          = some (pyJoin "\n" (scLoop st.metadata cpts).1) ∧
      ∀ g ∈ (scLoop st.metadata cpts).1,
        (dbGet (set_components st pkgid cpts).metadata g).isSome = true) ∧
    (cpts ≠ [] → (scLoop st.metadata cpts).1 = [] →
      (scLoop st.metadata cpts).2.1 ≠ "" →
      dbGet (set_components st pkgid cpts).packages pkgid = some "seen") := by
  refine ⟨?_, ?_, ?_⟩
  · intro h
    subst h
    rw [set_components]
    simp [dbGet_put_self]
  · intro hne hg
    have hlen : ¬ cpts.length = 0 := by simpa [List.length_eq_zero] using hne
    constructor
    · rw [set_components, if_neg hlen, if_pos hg]
      exact dbGet_put_self _ _ _
    · intro g hgm
      have hmeta : (set_components st pkgid cpts).metadata
          = (scLoop st.metadata cpts).2.2 := by
        rw [set_components, if_neg hlen]
        by_cases h2 : (scLoop st.metadata cpts).1 ≠ []
        · rw [if_pos h2]
        · rw [if_neg h2]
          by_cases h3 : (scLoop st.metadata cpts).2.1 ≠ ""
          · rw [if_pos h3]
          · rw [if_neg h3]
      rw [hmeta]
      exact scLoop_gids_covered cpts st.metadata g hgm
  · intro hne hg hh
    have hlen : ¬ cpts.length = 0 := by simpa [List.length_eq_zero] using hne
    rw [set_components, if_neg hlen, if_neg (by simpa using hg), if_pos hh]
    exact dbGet_put_self _ _ _

theorem foldl_remove_metadata (ks : List String) (st : CacheState) :
    (ks.foldl remove_package st).metadata = st.metadata := by
  induction ks generalizing st with
  | nil => rfl
  | cons k tl ih =>
    rw [List.foldl_cons, ih]
    rfl

theorem foldl_remove_media (ks : List String) (st : CacheState) :
    (ks.foldl remove_package st).media = st.media := by
  induction ks generalizing st with
  | nil => rfl
  | cons k tl ih =>
    rw [List.foldl_cons, ih]
    rfl

theorem foldl_remove_packages (ks : List String) (st : CacheState) :
    (ks.foldl remove_package st).packages
      = st.packages.filter (fun p => !(ks.contains p.1)) := by
  induction ks generalizing st with
  | nil => simp
  | cons k tl ih =>
    rw [List.foldl_cons, ih]
    show (st.packages.filter (fun p => !(p.1 == k))).filter (fun p => !(tl.contains p.1)) = _
    rw [List.filter_filter]
    apply List.filter_congr
    intro p _
    simp only [List.contains_cons, Bool.not_or]
    exact Bool.and_comm _ _

theorem dbGet_eq_none_of (db : List (String × String)) (k : String)
    (h : ∀ e ∈ db, e.1 ≠ k) : dbGet db k = none := by
  rw [dbGet, List.find?_eq_none.mpr]
  · rfl
  · intro e he
    simpa using h e he

theorem mem_referencedGids {pkgs : List (String × String)} {gid : String} :
    gid ∈ referencedGids pkgs ↔
      ∃ e ∈ pkgs, e.2 ≠ "" ∧ e.2 ≠ "ignore" ∧ e.2 ≠ "seen" ∧
        gid ∈ pySplit '\n' e.2 := by
  simp only [referencedGids, List.mem_flatMap, List.mem_filter]
  constructor
  · rintro ⟨e, ⟨he, hpred⟩, hm⟩
    simp only [Bool.and_eq_true, Bool.not_eq_true', beq_eq_false_iff_ne] at hpred
    exact ⟨e, he, hpred.1.1, hpred.1.2, hpred.2, hm⟩
  · rintro ⟨e, he, h1, h2, h3, hm⟩
    refine ⟨e, ⟨he, ?_⟩, hm⟩
    simp only [Bool.and_eq_true, Bool.not_eq_true', beq_eq_false_iff_ne]
    exact ⟨⟨h1, h2⟩, h3⟩

theorem removeFirstMedia_sublist (m : List (String × String)) (g : String) :
    (removeFirstMedia m g).Sublist m := by
  induction m with
  | nil => exact List.Sublist.refl _
  | cons e rest ih =>
    rw [removeFirstMedia]
    by_cases he : e.2 = g
    · rw [if_pos he]
      exact List.sublist_cons_self e rest
    · rw [if_neg he]
      exact List.Sublist.cons₂ e ih

theorem removeFirstMedia_no_gid (m : List (String × String)) (g : String)
    (hnd : (m.map Prod.snd).Nodup) : ∀ e ∈ removeFirstMedia m g, e.2 ≠ g := by
  induction m with
  | nil => intro e he; cases he
  | cons e0 rest ih =>
    rw [removeFirstMedia]
    rw [List.map_cons, List.nodup_cons] at hnd
    by_cases he : e0.2 = g
    · rw [if_pos he]
      intro e he'
      intro hcontra
      exact hnd.1 (he ▸ hcontra ▸ List.mem_map_of_mem Prod.snd he')
    · rw [if_neg he]
      intro e he'
      rcases List.mem_cons.mp he' with rfl | he''
      · exact he
      · exact ih hnd.2 e he''

theorem foldl_media_sublist (P : String × String → Bool)
    (l : List (String × String)) (m0 : List (String × String)) :
    (l.foldl (fun m p => if P p then m else removeFirstMedia m p.1) m0).Sublist m0 := by
  induction l generalizing m0 with
  | nil => exact List.Sublist.refl _
  | cons p rest ih =>
    rw [List.foldl_cons]
    by_cases hp : P p
    · rw [if_pos hp]
      exact ih m0
    · rw [if_neg hp]
      exact (ih _).trans (removeFirstMedia_sublist m0 p.1)

theorem foldl_media_id (P : String × String → Bool)
    (l : List (String × String)) (m0 : List (String × String))
    (h : ∀ p ∈ l, P p = true) :
    l.foldl (fun m p => if P p then m else removeFirstMedia m p.1) m0 = m0 := by
  induction l generalizing m0 with
  | nil => rfl
  | cons p rest ih =>
    rw [List.foldl_cons, if_pos (h p (List.mem_cons_self p rest))]
    exact ih m0 (fun q hq => h q (List.mem_cons_of_mem p hq))

theorem contains_iff_mem {l : List String} {a : String} :
    l.contains a = true ↔ a ∈ l := by
  simp

/-- C3: the effect of the expire operation on the cache state, for every
state whose media pool has at most one directory per gid.  Writing
`expire` for the state transformation of `DEP11Generator.expire_cache`
(stale-package removal followed by `remove_orphaned_components`): (1) no
package entry survives for a pkid outside the valid set; (2) every
remaining metadata gid is referenced by at least one surviving packages
entry; (3) a gid of the metadata database that no surviving packages entry
references loses its media directory; (4) expire is idempotent. -/
theorem c3_expire (st : CacheState) (valid : List String)
    (hmedia : (st.media.map Prod.snd).Nodup) :
    (∀ pkid, pkid ∉ valid → dbGet (expire st valid).packages pkid = none) ∧
    (∀ gid ∈ (expire st valid).metadata.map Prod.fst,
      ∃ e ∈ (expire st valid).packages,
        e.2 ≠ "" ∧ e.2 ≠ "ignore" ∧ e.2 ≠ "seen" ∧ gid ∈ pySplit '\n' e.2) ∧
    (∀ gid ∈ st.metadata.map Prod.fst,
      (∀ e ∈ (expire st valid).packages,
        e.2 = "" ∨ e.2 = "ignore" ∨ e.2 = "seen" ∨ gid ∉ pySplit '\n' e.2) →
      ∀ e ∈ (expire st valid).media, e.2 ≠ gid) ∧
    expire (expire st valid) valid = expire st valid := by
  have hpkgs : (expire st valid).packages
      = st.packages.filter
          (fun p => !((get_packages_not_in_set st valid).contains p.1)) :=
    foldl_remove_packages (get_packages_not_in_set st valid) st
  have hkey_valid : ∀ e ∈ (expire st valid).packages, e.1 ∈ valid := by
    intro e he
    rw [hpkgs] at he
    obtain ⟨hin, hpred⟩ := List.mem_filter.mp he
    by_contra hnv
    have hmem : e.1 ∈ get_packages_not_in_set st valid := by
      rw [get_packages_not_in_set]
      refine List.mem_filter.mpr ⟨List.mem_map_of_mem Prod.fst hin, ?_⟩
      simp only [Bool.not_eq_true']
      by_contra hcontains
      exact hnv (contains_iff_mem.mp (by
        cases hcv : (valid.contains e.1) with
        | true => rfl
        | false => exact absurd hcv hcontains))
    rw [Bool.not_eq_true'] at hpred
    exact absurd (contains_iff_mem.mpr hmem) (by rw [hpred]; exact Bool.false_ne_true)
  refine ⟨?_, ?_, ?_, ?_⟩
  · intro pkid hpk
    apply dbGet_eq_none_of
    intro e he
    intro hcontra
    exact hpk (hcontra ▸ hkey_valid e he)
  · intro gid hgid
    have hmeta1 : ((get_packages_not_in_set st valid).foldl remove_package st).metadata
        = st.metadata := foldl_remove_metadata _ st
    have hmeta : (expire st valid).metadata
        = st.metadata.filter
            (fun p => (referencedGids (expire st valid).packages).contains p.1) := by
      show (((get_packages_not_in_set st valid).foldl remove_package st).metadata.filter
            (fun p => (referencedGids (expire st valid).packages).contains p.1))
          = _
      rw [hmeta1]
    rw [hmeta] at hgid
    obtain ⟨p, hp, hp1⟩ := List.mem_map.mp hgid
    obtain ⟨_, hpred⟩ := List.mem_filter.mp hp
    have : gid ∈ referencedGids (expire st valid).packages :=
      contains_iff_mem.mp (hp1 ▸ hpred)
    exact mem_referencedGids.mp this
  · intro gid hgid horphan
    have hnref : gid ∉ referencedGids (expire st valid).packages := by
      intro hmem
      obtain ⟨e, he, h1, h2, h3, h4⟩ := mem_referencedGids.mp hmem
      rcases horphan e he with h | h | h | h
      · exact h1 h
      · exact h2 h
      · exact h3 h
      · exact h h4
    obtain ⟨p, hpmem, hp1⟩ := List.mem_map.mp hgid
    obtain ⟨l1, l2, hsplitm⟩ := List.append_of_mem hpmem
    have hmedia0 : ((get_packages_not_in_set st valid).foldl remove_package st).media
        = st.media := foldl_remove_media _ st
    have hmeta1 : ((get_packages_not_in_set st valid).foldl remove_package st).metadata
        = st.metadata := foldl_remove_metadata _ st
    have hform : (expire st valid).media
        = (l1 ++ p :: l2).foldl
            (fun m q =>
              if (referencedGids (expire st valid).packages).contains q.1 then m
              else removeFirstMedia m q.1) st.media := by
      show (((get_packages_not_in_set st valid).foldl remove_package st).metadata.foldl
            (fun m q =>
              if (referencedGids (expire st valid).packages).contains q.1 then m
              else removeFirstMedia m q.1)
          ((get_packages_not_in_set st valid).foldl remove_package st).media) = _
      rw [hmedia0, hmeta1, hsplitm]
    intro e he
    rw [hform, List.foldl_append, List.foldl_cons] at he
    have hcont : (referencedGids (expire st valid).packages).contains p.1 = false := by
      rw [hp1]
      cases hc : (referencedGids (expire st valid).packages).contains gid with
      | true => exact absurd (contains_iff_mem.mp hc) hnref
      | false => rfl
    rw [hcont] at he
    simp only [Bool.false_eq_true, if_false] at he
    have hsub1 := foldl_media_sublist
      (fun q => (referencedGids (expire st valid).packages).contains q.1) l1 st.media
    have hnd1 : (((l1.foldl
        (fun m q =>
          if (referencedGids (expire st valid).packages).contains q.1 then m
          else removeFirstMedia m q.1) st.media)).map Prod.snd).Nodup :=
      (hmedia.sublist (hsub1.map Prod.snd))
    have hgone := removeFirstMedia_no_gid _ p.1 hnd1
    have hsub2 := foldl_media_sublist
      (fun q => (referencedGids (expire st valid).packages).contains q.1) l2
      (removeFirstMedia (l1.foldl
        (fun m q =>
          if (referencedGids (expire st valid).packages).contains q.1 then m
          else removeFirstMedia m q.1) st.media) p.1)
    have he2 := hsub2.subset he
    rw [← hp1]
    exact hgone e he2
  · have hstale2 : get_packages_not_in_set (expire st valid) valid = [] := by
      rw [get_packages_not_in_set, List.filter_eq_nil_iff]
      intro k hk
      obtain ⟨e, he, he1⟩ := List.mem_map.mp hk
      simp only [Bool.not_eq_true', Bool.not_eq_false]
      exact he1 ▸ contains_iff_mem.mpr (hkey_valid e he)
    have hE : expire (expire st valid) valid
        = remove_orphaned_components (expire st valid) := by
      rw [expire, hstale2]
      rfl
    rw [hE]
    have hmetaE : ∀ p ∈ (expire st valid).metadata,
        (referencedGids (expire st valid).packages).contains p.1 = true := by
      intro p hp
      have hmeta1 : ((get_packages_not_in_set st valid).foldl remove_package st).metadata
          = st.metadata := foldl_remove_metadata _ st
      have hp' : p ∈ st.metadata.filter
          (fun q => (referencedGids (expire st valid).packages).contains q.1) := by
        have : (expire st valid).metadata
            = st.metadata.filter
                (fun q => (referencedGids (expire st valid).packages).contains q.1) := by
          show (((get_packages_not_in_set st valid).foldl remove_package st).metadata.filter
                (fun q => (referencedGids (expire st valid).packages).contains q.1))
              = _
          rw [hmeta1]
        exact this ▸ hp
      exact (List.mem_filter.mp hp').2
    simp only [remove_orphaned_components]
    rw [List.filter_eq_self.mpr hmetaE,
      foldl_media_id _ (expire st valid).metadata (expire st valid).media hmetaE]

/-- C3 (witness): `c3_expire` at a concrete state — the stale package
`old` disappears, and expire applied twice equals expire applied once. -/
theorem c3_expire_witness :
    dbGet (expire c3ExState ["p1", "p2"]).packages "old" = none ∧
    expire (expire c3ExState ["p1", "p2"]) ["p1", "p2"]
      = expire c3ExState ["p1", "p2"] := by
  have h := c3_expire c3ExState ["p1", "p2"] (by decide)
  exact ⟨h.1 "old" (by decide), h.2.2.2⟩

/-- C2 (witness): `c2_set_components` at a concrete state and component
list — a reused gid `g1`, a freshly serialized `g2`, an ignored `g3`. -/
theorem c2_set_components_witness :
    dbGet (set_components c2ExState "pk" c2ExCpts).packages "pk" = some "g1\ng2" ∧
    (dbGet (set_components c2ExState "pk" c2ExCpts).metadata "g2").isSome = true := by
  obtain ⟨hpkg, hmeta⟩ :=
    (c2_set_components c2ExState "pk" c2ExCpts).2.1 (by decide) (by decide)
  constructor
  · rw [hpkg]
    decide
  · exact hmeta "g2" (by decide)

/-- C5 (amended): a .desktop entry with `Type=Application` and
`NoDisplay=True` marks the component invisible whether or not a metainfo
XML was already read.  At the paired-XML call site the return value is
discarded and the component — though kept in the dict — carries the
`Invisible` ignore reason (so it is excluded from media fetching and
serialized only as ignored); its hints are untouched.  At the no-XML call
site a previously clean component is silently dropped. -/
theorem c5_nodisplay_amended (cpt : DComponent) (df : DesktopFile)
    (hgrp : df.groupOk = true) (hty : dfGet df "Type" = some "Application")
    (hnd : dfGet df "NoDisplay" = some "True") :
    read_desktop_data cpt df = (false, add_ignore_reason cpt "Invisible") ∧
    (process_paired_desktop cpt df).ignoreReasons
      = cpt.ignoreReasons ++ ["Invisible"] ∧
    (process_paired_desktop cpt df).hints = cpt.hints ∧
    (has_ignore_reason cpt = false → process_leftover_desktop cpt df = none) := by
  have h1 : read_desktop_data cpt df = (false, add_ignore_reason cpt "Invisible") := by
    rw [read_desktop_data, if_neg (by simp [hgrp]), hty]
    simp [hnd]
  refine ⟨h1, ?_, ?_, ?_⟩
  · rw [process_paired_desktop, h1]
    rfl
  · rw [process_paired_desktop, h1]
    rfl
  · intro h0
    have hr : cpt.ignoreReasons = [] := by
      rw [has_ignore_reason, Bool.not_eq_false'] at h0
      exact List.isEmpty_iff.mp h0
    rw [process_leftover_desktop, h1]
    have h2 : has_ignore_reason (add_ignore_reason cpt "Invisible") = true := by
      rw [has_ignore_reason, add_ignore_reason]
      simp
    simp [h2]

/-- C5 (counterexample): a component for which a metainfo XML was already
read (kind is `desktop-app`, a name is set) still gets the `Invisible`
ignore reason from its paired .desktop file carrying `NoDisplay=True` —
the claim said the entry would be ignored and the component kept. -/
theorem c5_nodisplay_cex :
    has_ignore_reason (process_paired_desktop desktopExCpt noDisplayExDf) = true ∧
    (process_paired_desktop desktopExCpt noDisplayExDf).ignoreReasons
      = ["Invisible"] := by
  exact ⟨by decide, by decide⟩

/-- C5 (witness): the amended theorem at the concrete component and
.desktop file — no XML pairing drops the component silently, and no hint
is recorded either way. -/
theorem c5_nodisplay_witness :
    process_leftover_desktop desktopExCpt noDisplayExDf = none ∧
    (process_paired_desktop desktopExCpt noDisplayExDf).hints = [] := by
  have h := c5_nodisplay_amended desktopExCpt noDisplayExDf
    (by decide) (by decide) (by decide)
  exact ⟨h.2.2.2 (by decide), (h.2.2.1).trans rfl⟩

/-- C6 (amended): for every non-empty `Categories` value `v`, the item
loop records the `;`-split of `v` with the last field removed
unconditionally (`value.pop()`) — both as the effect of the `categories`
item on any component, and end to end for a desktop-application entry
carrying that value; a non-empty trailing category is therefore
dropped. -/
theorem c6_categories_amended (cpt : DComponent) (v : String) (hv : v ≠ "") :
    (∀ c : DComponent, processItem c ("categories", v)
        = { c with categories := some ((pySplit ';' v).dropLast) }) ∧
    (read_desktop_data cpt
      { groupOk := true, items := [("type", "Application"), ("categories", v)] }).2.categories
      = some ((pySplit ';' v).dropLast) := by
  have hb1 : pyStartsWith "categories" "name" = false := by decide
  have hpi : ∀ c : DComponent, processItem c ("categories", v)
      = { c with categories := some ((pySplit ';' v).dropLast) } := by
    intro c
    simp only [processItem]
    rw [if_neg hv, hb1]
    simp
  refine ⟨hpi, ?_⟩
  have hred : read_desktop_data cpt
      { groupOk := true, items := [("type", "Application"), ("categories", v)] }
      = (true, ([("type", "Application"), ("categories", v)]).foldl processItem
          { cpt with kind := some "desktop-app" }) := rfl
  rw [hred]
  show (processItem (processItem { cpt with kind := some "desktop-app" }
      ("type", "Application")) ("categories", v)).categories = _
  rw [show processItem { cpt with kind := some "desktop-app" } ("type", "Application")
      = { cpt with kind := some "desktop-app" } from rfl, hpi]

/-- C6 (counterexample): the value `A;B` (no trailing separator) yields
only the category `A` — the non-empty trailing category `B` is dropped,
against the claim that only trailing empty fields are discarded. -/
theorem c6_categories_cex :
    (read_desktop_data desktopExCpt
      { groupOk := true, items := [("type", "Application"), ("categories", "A;B")] }).2.categories
      = some ["A"] ∧
    some ["A"] ≠ some ["A", "B"] := by
  exact ⟨by decide, by decide⟩

/-- C6 (witness): the amended theorem at `A;B;` (yielding A and B) and at
`A;B` (yielding only A). -/
theorem c6_categories_witness :
    (read_desktop_data desktopExCpt
      { groupOk := true, items := [("type", "Application"), ("categories", "A;B;")] }).2.categories
      = some ["A", "B"] ∧
    (read_desktop_data desktopExCpt
      { groupOk := true, items := [("type", "Application"), ("categories", "A;B")] }).2.categories
      = some ["A"] := by
  constructor
  · rw [(c6_categories_amended desktopExCpt "A;B;" (by decide)).2]
    decide
  · rw [(c6_categories_amended desktopExCpt "A;B" (by decide)).2]
    decide

theorem pyEndsWith_append (s p : String) : pyEndsWith (s ++ p) p = true := by
  rw [pyEndsWith, List.isSuffixOf, data_append, List.reverse_append]
  exact isPrefixOf_self_append _ _

theorem pyLower_append (a b : String) : pyLower (a ++ b) = pyLower a ++ pyLower b := by
  apply String.ext
  simp [pyLower, data_append]

/-- C7 (amended): the two suffix checks differ.  The IconHandler accepts
exactly `{png, svg, svgz, gif, jpg}` case-insensitively, and its early
check emits `icon-format-unsupported` and stops for a dotted reference
outside that set; the extractor's `_icon_allowed` additionally accepts
`.xcf` and is case-sensitive, and its fallback emits
`icon-format-unsupported` only for dotted references it rejects. -/
theorem c7_icon_allowed_amended :
    (∀ s, pyContainsChar '.' s = true → iconhandler_icon_allowed s = false →
      fetch_icon_early_check s = (some "icon-format-unsupported", true)) ∧
    (∀ s, iconhandler_icon_allowed s = true →
      fetch_icon_early_check s = (none, false)) ∧
    (∀ s, pyContainsChar '.' s = true → extractor_icon_allowed s = false →
      extractor_fallback_hint s = "icon-format-unsupported") ∧
    (∀ s, extractor_icon_allowed (s ++ ".xcf") = true) ∧
    (∀ s, iconhandler_icon_allowed (s ++ ".PNG") = true) ∧
    iconhandler_icon_allowed "foo.xcf" = false := by
  refine ⟨?_, ?_, ?_, ?_, ?_, by decide⟩
  · intro s h1 h2
    rw [fetch_icon_early_check, if_pos (by rw [h1, h2]; rfl)]
  · intro s h
    rw [fetch_icon_early_check, if_neg (by rw [h]; simp)]
  · intro s h1 h2
    rw [extractor_fallback_hint, if_pos (by rw [h1, h2]; rfl)]
  · intro s
    simp only [extractor_icon_allowed, List.any_eq_true]
    exact ⟨".xcf", by decide, pyEndsWith_append s ".xcf"⟩
  · intro s
    have hl : pyLower (s ++ ".PNG") = pyLower s ++ ".png" := by
      rw [pyLower_append, show pyLower ".PNG" = ".png" from by decide]
    simp only [iconhandler_icon_allowed, List.any_eq_true]
    refine ⟨".png", by decide, ?_⟩
    rw [hl]
    exact pyEndsWith_append _ _

/-- C7 (counterexample): the reference `foo.xcf` carries a suffix outside
the claimed set `{png, svg, svgz, gif, jpg}`, yet the extractor accepts
it — `_icon_allowed` returns True and the fallback hint is
`icon-not-found`, not `icon-format-unsupported` — while the IconHandler
rejects it: the claimed single acceptance rule is false on the code. -/
theorem c7_icon_allowed_cex :
    extractor_icon_allowed "foo.xcf" = true ∧
    iconhandler_icon_allowed "foo.xcf" = false ∧
    extractor_fallback_hint "foo.xcf" = "icon-not-found" := by
  exact ⟨by decide, by decide, by decide⟩

/-- C7 (witness): the amended theorem at `a.ico`, a suffix both checks
reject: the early check stops with `icon-format-unsupported`, and so does
the extractor fallback. -/
theorem c7_icon_allowed_witness :
    fetch_icon_early_check "a.ico" = (some "icon-format-unsupported", true) ∧
    extractor_fallback_hint "a.ico" = "icon-format-unsupported" := by
  obtain ⟨h1, _, h3, _, _, _⟩ := c7_icon_allowed_amended
  exact ⟨h1 "a.ico" (by decide) (by decide), h3 "a.ico" (by decide) (by decide)⟩

theorem fetch_loop_all_ok (base : String) (l : List SrcShot) (cnt : Nat)
    (hok : ∀ s ∈ l, s.url ≠ "" ∧ ∃ w h, s.fetch = .ok w h) :
    (fetch_screenshots_loop base l cnt).1 = [] ∧
    (fetch_screenshots_loop base l cnt).2.2 = true ∧
    (fetch_screenshots_loop base l cnt).2.1.length = l.length := by
  induction l generalizing cnt with
  | nil => exact ⟨rfl, rfl, rfl⟩
  | cons s rest ih =>
    obtain ⟨hu, w, h, hf⟩ := hok s (List.mem_cons_self s rest)
    have ih' := ih (cnt + 1) (fun q hq => hok q (List.mem_cons_of_mem s hq))
    rw [fetch_screenshots_loop, if_neg hu, hf]
    dsimp only
    exact ⟨ih'.1, ih'.2.1, by simp [ih'.2.2]⟩

theorem fetch_loop_thumbs (base : String) (l : List SrcShot) (cnt : Nat) :
    ∀ ps ∈ (fetch_screenshots_loop base l cnt).2.1, ps.thumbnails.length = 4 := by
  induction l generalizing cnt with
  | nil => intro ps hps; cases hps
  | cons s rest ih =>
    intro ps hps
    rw [fetch_screenshots_loop] at hps
    by_cases hu : s.url = ""
    · rw [if_pos hu] at hps
      exact ih cnt ps hps
    · rw [if_neg hu] at hps
      cases hf : s.fetch with
      | ok w h =>
        rw [hf] at hps
        rcases List.mem_cons.mp hps with rfl | hps'
        · rfl
        · exact ih (cnt + 1) ps hps'
      | httpError code =>
        rw [hf] at hps
        exact ih cnt ps hps
      | netError m =>
        rw [hf] at hps
        exact ih cnt ps hps
      | readError m =>
        rw [hf] at hps
        exact ih cnt ps hps

theorem fetch_loop_frame (base : String) (bad : SrcShot) (post : List SrcShot)
    (hbad : (∃ code, bad.fetch = ShotFetch.httpError code) ∨
            (∃ m, bad.fetch = ShotFetch.netError m))
    (hbadurl : bad.url ≠ "") :
    ∀ (pre : List SrcShot) (cnt : Nat),
      (∀ s ∈ pre, s.url ≠ "" ∧ ∃ w h, s.fetch = .ok w h) →
      (fetch_screenshots_loop base (pre ++ bad :: post) cnt).1
          = ("screenshot-download-error", bad.url)
              :: (fetch_screenshots_loop base (pre ++ post) cnt).1 ∧
      (fetch_screenshots_loop base (pre ++ bad :: post) cnt).2.1
          = (fetch_screenshots_loop base (pre ++ post) cnt).2.1 ∧
      (fetch_screenshots_loop base (pre ++ bad :: post) cnt).2.2 = false := by
  intro pre
  induction pre with
  | nil =>
    intro cnt _
    rw [List.nil_append, List.nil_append, fetch_screenshots_loop, if_neg hbadurl]
    rcases hbad with ⟨code, hf⟩ | ⟨m, hf⟩ <;> rw [hf] <;> exact ⟨rfl, rfl, rfl⟩
  | cons s pre ih =>
    intro cnt hok
    obtain ⟨hu, w, h, hf⟩ := hok s (List.mem_cons_self s pre)
    have ih' := ih (cnt + 1) (fun q hq => hok q (List.mem_cons_of_mem s hq))
    rw [List.cons_append, List.cons_append, fetch_screenshots_loop, if_neg hu, hf,
      fetch_screenshots_loop, if_neg hu, hf]
    dsimp only
    exact ⟨ih'.1, by rw [ih'.2.1], ih'.2.2⟩

/-- C8: a download failure (non-200 status or network error) on one
screenshot of a component with several adds exactly one
`screenshot-download-error` hint carrying that screenshot's URL, and the
run produces the same processed screenshots — all of them downloaded,
with their four thumbnails — as a run without the failing screenshot; the
overall success flag is false, but (the hint being non-fatal per the
severity table) the component's ignore flag is unchanged. -/
theorem c8_screenshot_failure_isolated (isError : String → Bool) (cpt : C8Cpt)
    (base : String) (pre post : List SrcShot) (bad : SrcShot)
    (hok : ∀ s ∈ pre, s.url ≠ "" ∧ ∃ w h, s.fetch = .ok w h)
    (hpost : ∀ s ∈ post, s.url ≠ "" ∧ ∃ w h, s.fetch = .ok w h)
    (hbad : (∃ code, bad.fetch = ShotFetch.httpError code) ∨
            (∃ m, bad.fetch = ShotFetch.netError m))
    (hbadurl : bad.url ≠ "")
    (herr : screenshot_download_error_nonfatal isError) :
    (fetch_screenshots isError cpt (pre ++ bad :: post) base).1.hints
        = cpt.hints ++ [("screenshot-download-error", bad.url)] ∧
    (fetch_screenshots isError cpt (pre ++ bad :: post) base).2.1
        = (fetch_screenshots isError cpt (pre ++ post) base).2.1 ∧
    (fetch_screenshots isError cpt (pre ++ bad :: post) base).2.1.length
        = pre.length + post.length ∧
    (∀ ps ∈ (fetch_screenshots isError cpt (pre ++ bad :: post) base).2.1,
      ps.thumbnails.length = 4) ∧
    (fetch_screenshots isError cpt (pre ++ bad :: post) base).1.ignored
        = cpt.ignored ∧
    (fetch_screenshots isError cpt (pre ++ bad :: post) base).2.2 = false := by
  have hframe := fetch_loop_frame base bad post hbad hbadurl pre 1 hok
  have hallok : ∀ s ∈ pre ++ post, s.url ≠ "" ∧ ∃ w h, s.fetch = .ok w h := by
    intro s hs
    rcases List.mem_append.mp hs with h | h
    · exact hok s h
    · exact hpost s h
  have hclean := fetch_loop_all_ok base (pre ++ post) 1 hallok
  have hhints : (fetch_screenshots_loop base (pre ++ bad :: post) 1).1
      = [("screenshot-download-error", bad.url)] := by
    rw [hframe.1, hclean.1]
  refine ⟨?_, ?_, ?_, ?_, ?_, ?_⟩
  · show cpt.hints ++ (fetch_screenshots_loop base (pre ++ bad :: post) 1).1 = _
    rw [hhints]
  · show (fetch_screenshots_loop base (pre ++ bad :: post) 1).2.1
        = (fetch_screenshots_loop base (pre ++ post) 1).2.1
    exact hframe.2.1
  · show (fetch_screenshots_loop base (pre ++ bad :: post) 1).2.1.length = _
    rw [hframe.2.1, hclean.2.2, List.length_append]
  · intro ps hps
    exact fetch_loop_thumbs base (pre ++ bad :: post) 1 ps hps
  · show (cpt.ignored
        || (fetch_screenshots_loop base (pre ++ bad :: post) 1).1.any
            (fun h => isError h.1)) = cpt.ignored
    rw [hhints]
    rw [screenshot_download_error_nonfatal] at herr
    simp [herr]
  · show (fetch_screenshots_loop base (pre ++ bad :: post) 1).2.2 = false
    exact hframe.2.2

/-- C8 (witness): the theorem at one good screenshot, one returning HTTP
404, and another good one, with the trivially non-fatal severity table. -/
theorem c8_screenshot_failure_witness :
    (fetch_screenshots (fun _ => false) c8ExCpt [c8ExGood, c8ExBad, c8ExGood2] "B").1.hints
        = [("screenshot-download-error", "http://a/2.png")] ∧
    (fetch_screenshots (fun _ => false) c8ExCpt [c8ExGood, c8ExBad, c8ExGood2] "B").1.ignored
        = false ∧
    (fetch_screenshots (fun _ => false) c8ExCpt [c8ExGood, c8ExBad, c8ExGood2] "B").2.1
        = (fetch_screenshots (fun _ => false) c8ExCpt [c8ExGood, c8ExGood2] "B").2.1 := by
  have h := c8_screenshot_failure_isolated (fun _ => false) c8ExCpt "B"
    [c8ExGood] [c8ExGood2] c8ExBad
    (by
      intro s hs
      rw [List.mem_singleton] at hs
      subst hs
      exact ⟨by decide, 800, 600, rfl⟩)
    (by
      intro s hs
      rw [List.mem_singleton] at hs
      subst hs
      exact ⟨by decide, 640, 480, rfl⟩)
    (Or.inl ⟨404, rfl⟩)
    (by decide)
    rfl
  exact ⟨h.1, h.2.2.2.2.1, h.2.1⟩

end Dep11
